import Mathlib

/-!
# Featherbot message-routing core: shallow embedding and verification

Definitions are translated from the TypeScript sources of the repository
(`packages/channels/src/manager.ts`, `terminal.ts`, `types.ts`,
`packages/cli/src/commands/gateway.ts`, the heartbeat service, and
`packages/core/src/agent/subagent-types.ts`).  Components whose
implementation files are not part of the source tree (the `@featherbot/bus`
`MessageBus`, the `BusAdapter`, and the `SubagentManager`) are modelled
from the specification, as marked in their doc comments.
-/

namespace Featherbot

/-! ## Data model: messages and metadata -/

/-- A metadata value; the core treats values as opaque, the only value the
core itself ever writes is the boolean `true` under the key `"error"`. -/
inductive MetaValue where
  | bool (b : Bool)
  | str (s : String)
  deriving DecidableEq, Repr

/-- String-keyed open metadata mapping. -/
def Metadata := List (String × MetaValue)

instance : DecidableEq Metadata := by
  unfold Metadata
  infer_instance

/-- Inbound message shape (channel, sender, chat id, content, media,
metadata), from the `createInboundMessage` call sites. -/
structure InboundMessage where
  channel : String
  senderId : String
  chatId : String
  content : String
  media : List String
  metadata : Metadata
  deriving DecidableEq

/-- Outbound message shape, from the `OutboundMessage` uses in
`manager.test.ts` / `gateway.ts` (`channel`, `chatId`, `content`,
`replyTo`, `media`, `metadata`, `messageId`, `inReplyToMessageId`). -/
structure OutboundMessage where
  channel : String
  chatId : String
  content : String
  replyTo : Option String
  media : List String
  metadata : Metadata
  messageId : Option String
  inReplyToMessageId : Option String
  deriving DecidableEq

/-! ## Bus Adapter

The reasoning engine (`agentLoop.processMessage`) returns a result whose
`text` field holds the reply, or fails with an error value. -/

/-- Result of `processMessage`: the spec requires at least a `text` field. -/
structure AgentLoopResult where
  text : String
  deriving DecidableEq

/-- Outcome of one reasoning-engine call: success with a result, or a
failure carrying the error's message string. -/
def EngineOutcome := Except String AgentLoopResult

/-- Modelled from the spec: the `BusAdapter` implementation
(`packages/channels/src/adapter.ts`) is not among the source files, only
its tests and callers are.  Per §4.3, the inbound handler calls the
reasoning engine with the inbound message; on success it publishes one
outbound message with the same channel and chat id and the engine's text
as content; on failure it synthesizes an outbound message whose content is
a human-readable error string (`"Error: " ++ message`, as fixed by the
integration test) with metadata `{error: true}`, and publishes that — the
error is never propagated to the bus (the handler is total).  The returned
list is the list of outbound events published for this inbound event. -/
def busAdapterHandleInbound (engine : InboundMessage → EngineOutcome)
    (msg : InboundMessage) : List OutboundMessage :=
  match engine msg with
  | .ok result =>
      [{ channel := msg.channel
         chatId := msg.chatId
         content := result.text
         replyTo := none
         media := []
         metadata := []
         messageId := none
         inReplyToMessageId := none }]
  | .error e =>
      [{ channel := msg.channel
         chatId := msg.chatId
         content := "Error: " ++ e
         replyTo := none
         media := []
         metadata := [("error", MetaValue.bool true)]
         messageId := none
         inReplyToMessageId := none }]

/-! ## Channel Capability Contract & Channel Manager

Translated from `ChannelManager` (`packages/channels/src/manager.ts`).
A channel is polymorphic over {start, stop, send}; here a channel instance
is embedded as a record carrying its `name`, an instance identity `cid`
(distinguishing two instances with equal names, as JavaScript object
identity does), and the outcomes its `start()` / `stop()` calls settle
with.  `send` invocations are recorded in traces. -/

instance : DecidableEq (Except String Unit) := fun a b =>
  match a, b with
  | .ok x, .ok y => .isTrue (by cases x; cases y; rfl)
  | .error x, .error y =>
      if h : x = y then .isTrue (by rw [h]) else .isFalse (by simp [h])
  | .ok _, .error _ => .isFalse (by simp)
  | .error _, .ok _ => .isFalse (by simp)

structure Channel where
  name : String
  cid : Nat
  startResult : Except String Unit
  stopResult : Except String Unit
  deriving DecidableEq

/-- Manager state: the `channels` Map (insertion-ordered, keyed by name)
and whether the outbound handler is currently subscribed on the bus
(`outboundHandler !== undefined` together with the bus's subscriber list;
the subscriber-list half is modelled from spec §4.1: `publish` delivers
the event to every handler currently subscribed to the event's topic). -/
structure ChannelManagerState where
  channels : List (String × Channel)
  outboundSubscribed : Bool
  deriving DecidableEq

/-- A fresh manager: empty registry, no outbound handler subscribed. -/
def ChannelManager.new : ChannelManagerState :=
  { channels := [], outboundSubscribed := false }

/-- `register(channel)`: throws `Channel "<name>" is already registered`
if the name is taken, otherwise inserts the channel (JS `Map.set` appends
a new key at the end of the iteration order). -/
def ChannelManager.register (st : ChannelManagerState) (ch : Channel) :
    Except String ChannelManagerState :=
  if st.channels.any (fun p => p.1 == ch.name) then
    .error ("Channel \"" ++ ch.name ++ "\" is already registered")
  else
    .ok { st with channels := st.channels ++ [(ch.name, ch)] }

/-- `getChannel(name)`: `Map.get`, i.e. the value stored under the key. -/
def ChannelManager.getChannel (st : ChannelManagerState) (name : String) :
    Option Channel :=
  (st.channels.find? (fun p => p.1 == name)).map (fun p => p.2)

/-- `getChannels()`: the registry's values in insertion order. -/
def ChannelManager.getChannels (st : ChannelManagerState) : List Channel :=
  st.channels.map (fun p => p.2)

/-- One warning reported to the injected logger: message and the metadata
string attached to it. -/
structure Warning where
  message : String
  meta : String
  deriving DecidableEq

/-- Outcome of `startAll()` / `stopAll()`: the new manager state, the
`cid`s of every channel whose start (resp. stop) was invoked, and the
warnings logged for settled rejections.  `Promise.allSettled` invokes the
operation on every channel and collects all settlements, so the function
is total: a rejection becomes a warning, never an exception. -/
structure LifecycleResult where
  state : ChannelManagerState
  invoked : List Nat
  warnings : List Warning
  deriving DecidableEq

/-- `startAll()`: subscribes the outbound handler to `"message:outbound"`,
then `Promise.allSettled` over every registered channel's `start()`;
each rejection is logged as `Channel failed to start` with the error
message. -/
def ChannelManager.startAll (st : ChannelManagerState) : LifecycleResult :=
  let st1 := { st with outboundSubscribed := true }
  { state := st1
    invoked := st1.channels.map (fun p => p.2.cid)
    warnings := st1.channels.filterMap (fun p =>
      match p.2.startResult with
      | .ok _ => none
      | .error e => some { message := "Channel failed to start", meta := e }) }

/-- `stopAll()`: unsubscribes the outbound handler (when subscribed), then
`Promise.allSettled` over every registered channel's `stop()`; each
rejection is logged as `Channel failed to stop`. -/
def ChannelManager.stopAll (st : ChannelManagerState) : LifecycleResult :=
  let st1 := { st with outboundSubscribed := false }
  { state := st1
    invoked := st1.channels.map (fun p => p.2.cid)
    warnings := st1.channels.filterMap (fun p =>
      match p.2.stopResult with
      | .ok _ => none
      | .error e => some { message := "Channel failed to stop", meta := e }) }

/-- Outcome of publishing one outbound event: the `send` invocations
(target channel `cid` with the delivered message) and the warnings. -/
structure DeliveryResult where
  sends : List (Nat × OutboundMessage)
  warnings : List Warning
  deriving DecidableEq

/-- Publishing an outbound event on the bus.  The bus side is modelled
from spec §4.1 (the `MessageBus` implementation is not among the source
files): `publish` delivers the event to every handler currently subscribed
to its topic, so the manager's outbound handler runs iff it is subscribed.
The handler body is translated from `manager.ts` `startAll`: look the
channel up by the message's `channel` field; if absent, log
`No channel found for outbound message` and return; otherwise call the
channel's `send` with the message. -/
def publishOutbound (st : ChannelManagerState) (msg : OutboundMessage) :
    DeliveryResult :=
  if st.outboundSubscribed then
    match ChannelManager.getChannel st msg.channel with
    | none =>
        { sends := []
          warnings := [{ message := "No channel found for outbound message"
                         meta := msg.channel }] }
    | some ch => { sends := [(ch.cid, msg)], warnings := [] }
  else
    { sends := [], warnings := [] }

/-! ## Gateway startup sequence

Translated from `runGateway` (`packages/cli/src/commands/gateway.ts`,
lines 147-156). -/

/-- One call issued during gateway startup. -/
inductive GatewayAction where
  | adapterStart
  | channelsStartAll
  | cronStart
  | heartbeatStart
  deriving DecidableEq, Repr

/-- The startup sequence of `runGateway`: `adapter.start()`, then
`await channelManager.startAll()`, then `cronService.start()` if the cron
service was configured (`config.cron.enabled`), then
`heartbeatService.start()` if the heartbeat service was configured
(`config.heartbeat.enabled`).  The sequential trace records the order in
which the calls are issued; the `await` on `startAll` means the following
actions are issued only after every channel start has settled. -/
def runGatewayStartup (cronConfigured heartbeatConfigured : Bool) :
    List GatewayAction :=
  [GatewayAction.adapterStart, GatewayAction.channelsStartAll]
    ++ (if cronConfigured then [GatewayAction.cronStart] else [])
    ++ (if heartbeatConfigured then [GatewayAction.heartbeatStart] else [])

/-! ## Terminal channel

Translated from `TerminalChannel` (`packages/channels/src/terminal.ts`). -/

/-- The mutable state of a `TerminalChannel`: the `running` flag and
whether the readline interface is present (`rl !== undefined`). -/
structure TerminalChannelState where
  running : Bool
  rlOpen : Bool
  deriving DecidableEq, Repr

/-- A freshly constructed channel: not running, no readline interface. -/
def TerminalChannel.init : TerminalChannelState :=
  { running := false, rlOpen := false }

/-- `start()`: sets `running` and creates the readline interface. -/
def TerminalChannel.start (_ : TerminalChannelState) : TerminalChannelState :=
  { running := true, rlOpen := true }

/-- `stop()`: clears `running`; if the readline interface is present,
closes it and clears the field.  Total: raises no error in any state,
including before any `start` and on repeated calls. -/
def TerminalChannel.stop (s : TerminalChannelState) : TerminalChannelState :=
  let s1 := { s with running := false }
  if s1.rlOpen then { s1 with rlOpen := false } else s1

/-- JavaScript `String.prototype.trim`: strips whitespace from both ends
of the string.  Defined by structural recursion on the character list so
that it evaluates inside the kernel. -/
def jsTrim (s : String) : String :=
  ⟨((s.data.dropWhile Char.isWhitespace).reverse.dropWhile
      Char.isWhitespace).reverse⟩

/-- The exit commands recognized by the terminal channel. -/
def EXIT_COMMANDS : List String := ["exit", "quit", "/quit"]

/-- One iteration of `promptLoop` applied to the line the user entered:
if the channel is not running or the readline interface is gone, nothing
happens; an exit command stops the channel; a blank line is ignored;
otherwise exactly one inbound message carrying the trimmed content is
published. -/
def TerminalChannel.promptLoopStep (s : TerminalChannelState) (line : String) :
    TerminalChannelState × List InboundMessage :=
  if ¬ s.running ∨ ¬ s.rlOpen then (s, [])
  else
    let trimmed := jsTrim line
    if EXIT_COMMANDS.contains trimmed then (TerminalChannel.stop s, [])
    else if trimmed = "" then (s, [])
    else
      (s, [{ channel := "terminal"
             senderId := "terminal:local"
             chatId := "terminal:default"
             content := trimmed
             media := []
             metadata := [] }])

/-! ## Channel status

Translated from `packages/channels/src/types.ts`. -/

/-- `ChannelStatus` as declared in `types.ts`:
`export type ChannelStatus = "stopped" | "starting" | "running" | "error"`. -/
inductive ChannelStatus where
  | stopped
  | starting
  | running
  | error
  deriving DecidableEq, Repr

/-- The string literal each `ChannelStatus` member denotes. -/
def ChannelStatus.literal : ChannelStatus → String
  | .stopped => "stopped"
  | .starting => "starting"
  | .running => "running"
  | .error => "error"

/-- The four status names claimed by the specification
("not-started / starting / running / failed"); kept separate from the
source-derived `ChannelStatus` so the two can be compared. -/
def specClaimedStatusNames : List String :=
  ["not-started", "starting", "running", "failed"]

/-- The status names actually occurring in the source union type. -/
def codeStatusNames : List String :=
  ["stopped", "starting", "running", "error"]

/-! ## Subagent Manager

The task record and spawn-option types are translated from
`packages/core/src/agent/subagent-types.ts`; the manager's behaviour is
modelled from the spec (see the doc comments below). -/

/-- `SubagentStatus` (subagent-types.ts):
`"running" | "completed" | "failed"`. -/
inductive SubagentStatus where
  | running
  | completed
  | failed
  deriving DecidableEq, Repr

/-- `SubagentState` (subagent-types.ts); timestamps are abstract ticks. -/
structure SubagentState where
  id : String
  task : String
  status : SubagentStatus
  result : Option String
  error : Option String
  startedAt : Nat
  completedAt : Option Nat
  originChannel : String
  originChatId : String
  deriving DecidableEq, Repr

/-- `SpawnOptions` (subagent-types.ts). -/
structure SpawnOptions where
  task : String
  originChannel : String
  originChatId : String
  deriving DecidableEq, Repr

/-- A task run: the task record together with the list of task records the
completion callback has so far been invoked with. -/
structure SubagentRun where
  state : SubagentState
  callbackLog : List SubagentState
  deriving DecidableEq, Repr

/-- A settlement racing for a running task: the timeout timer fires, or
the provider call resolves or rejects, each at some tick. -/
inductive SubagentEvent where
  | timeoutFired (now : Nat)
  | providerResolved (text : String) (now : Nat)
  | providerRejected (message : String) (now : Nat)
  deriving DecidableEq, Repr

/-- Modelled from the spec: the `SubagentManager` implementation
(`packages/core/src/agent/subagent.ts`) is not among the source files,
only its type definitions, tests and callers are.  `spawn` (spec §4.4)
generates a fresh identifier and creates a task record in `running` status
with the current time as start; the completion callback has not yet been
invoked. -/
def subagentSpawn (id : String) (opts : SpawnOptions) (now : Nat) :
    SubagentRun :=
  { state := { id := id
               task := opts.task
               status := .running
               result := none
               error := none
               startedAt := now
               completedAt := none
               originChannel := opts.originChannel
               originChatId := opts.originChatId }
    callbackLog := [] }

/-- Modelled from the spec: settlement handling of the timeout/provider
race (spec §4.4, §5, §9).  The first settlement of a `running` task
commits a terminal transition — the timeout to `failed` with the fixed
error message `Sub-agent timed out`, a provider resolution to `completed`
with the result text, a provider rejection to `failed` with the provider's
error text — and invokes the completion callback with the full task record
exactly once; any settlement arriving when the task is already terminal is
discarded and changes neither the record nor the callback log. -/
def subagentStep (run : SubagentRun) (ev : SubagentEvent) : SubagentRun :=
  match run.state.status with
  | .running =>
      let newState :=
        match ev with
        | .timeoutFired now =>
            { run.state with
              status := .failed
              error := some "Sub-agent timed out"
              completedAt := some now }
        | .providerResolved text now =>
            { run.state with
              status := .completed
              result := some text
              completedAt := some now }
        | .providerRejected message now =>
            { run.state with
              status := .failed
              error := some message
              completedAt := some now }
      { state := newState, callbackLog := run.callbackLog ++ [newState] }
  | _ => run

/-! ## Heartbeat service

Translated from the `HeartbeatService` source file. -/

/-- Outcome of `readFileSync` on the heartbeat file: the read throws
(unreadable file) or returns the content string. -/
inductive HeartbeatFileRead where
  | unreadable
  | content (s : String)
  deriving DecidableEq, Repr

/-- Result of one `tick()`: the `processing` flag after the synchronous
part of the tick, whether the heartbeat file was read, and the content
`onTick` was invoked with, if it was invoked. -/
structure HeartbeatTickResult where
  processing : Bool
  fileRead : Bool
  invoked : Option String
  deriving DecidableEq, Repr

/-- `HeartbeatService.tick()` translated from the source: if `processing`
is set, return immediately (no file read, no `onTick` call); otherwise read
the heartbeat file — on a read error return; if the trimmed content is
empty return; otherwise set `processing` and invoke `onTick` with the
content.  The `finally` handler clearing `processing` when the `onTick`
promise settles is `heartbeatSettle`. -/
def heartbeatTick (processing : Bool) (file : HeartbeatFileRead) :
    HeartbeatTickResult :=
  if processing then
    { processing := processing, fileRead := false, invoked := none }
  else
    match file with
    | .unreadable =>
        { processing := processing, fileRead := true, invoked := none }
    | .content c =>
        if jsTrim c = "" then
          { processing := processing, fileRead := true, invoked := none }
        else
          { processing := true, fileRead := true, invoked := some c }

/-- The `.finally` of the `onTick` promise: clears `processing`. -/
def heartbeatSettle (_processing : Bool) : Bool := false

/-- An observable event of the heartbeat service over time: an interval
tick fires (with the heartbeat file in some read state), or an in-flight
`onTick` promise settles (its `finally` runs). -/
inductive HeartbeatEvent where
  | tickFired (file : HeartbeatFileRead)
  | onTickSettled
  deriving DecidableEq, Repr

/-- System state over time: the service's `processing` flag plus the
number of `onTick` invocations currently in flight (invoked, promise not
yet settled). -/
structure HeartbeatSystem where
  processing : Bool
  inFlight : Nat
  deriving DecidableEq, Repr

/-- A freshly constructed service: not processing, nothing in flight. -/
def heartbeatInit : HeartbeatSystem := { processing := false, inFlight := 0 }

/-- One observable step: a tick runs `heartbeatTick`; when the tick
invokes `onTick`, one more invocation is in flight.  A settlement runs the
`finally` clearing `processing`; a settlement can only occur while an
invocation is in flight. -/
def heartbeatStepSys (sys : HeartbeatSystem) (ev : HeartbeatEvent) :
    HeartbeatSystem :=
  match ev with
  | .tickFired file =>
      let r := heartbeatTick sys.processing file
      { processing := r.processing
        inFlight := sys.inFlight + (if r.invoked.isSome then 1 else 0) }
  | .onTickSettled =>
      if sys.inFlight = 0 then sys
      else { processing := heartbeatSettle sys.processing
             inFlight := sys.inFlight - 1 }

/-- Invariant of the heartbeat system: the `processing` flag is set exactly
when one `onTick` invocation is in flight; never more than one. -/
def HeartbeatInv (sys : HeartbeatSystem) : Prop :=
  (sys.processing = true ∧ sys.inFlight = 1) ∨
  (sys.processing = false ∧ sys.inFlight = 0)

end Featherbot

namespace Featherbot

/-- C1: For every inbound event delivered while the Bus Adapter is started,
exactly one outbound event is published; it carries the inbound message's
channel name and chat identifier; its content is the engine's reply text
when `processMessage` succeeds, and on failure it is the synthesized error
string with metadata `{error: true}` — the failure is converted into a
message, never propagated to the bus. -/
theorem busAdapter_exactly_one_outbound
    (engine : InboundMessage → EngineOutcome) (msg : InboundMessage) :
    (busAdapterHandleInbound engine msg).length = 1 ∧
    (∀ out ∈ busAdapterHandleInbound engine msg,
      out.channel = msg.channel ∧ out.chatId = msg.chatId) ∧
    (∀ result, engine msg = .ok result →
      ∀ out ∈ busAdapterHandleInbound engine msg,
        out.content = result.text) ∧
    (∀ e, engine msg = .error e →
      ∀ out ∈ busAdapterHandleInbound engine msg,
        out.content = "Error: " ++ e ∧
        out.metadata = [("error", MetaValue.bool true)]) := by
  unfold busAdapterHandleInbound
  cases h : engine msg with
  | ok result =>
      refine ⟨rfl, ?_, ?_, ?_⟩
      · intro out hout
        simp only [List.mem_singleton] at hout
        subst hout
        exact ⟨rfl, rfl⟩
      · intro r hr out hout
        simp only [List.mem_singleton] at hout
        subst hout
        injection hr with hr
        simp [hr]
      · intro e he
        exact absurd he (by simp)
  | error e =>
      refine ⟨rfl, ?_, ?_, ?_⟩
      · intro out hout
        simp only [List.mem_singleton] at hout
        subst hout
        exact ⟨rfl, rfl⟩
      · intro r hr
        exact absurd hr (by simp)
      · intro e' he' out hout
        simp only [List.mem_singleton] at hout
        injection he' with he'
        subst hout he'
        exact ⟨rfl, rfl⟩

/-- Witness for `busAdapter_exactly_one_outbound` at a concrete engine and
message (the integration-test scenario: reply "Hello from agent!" on
channel "test-channel", chat "test:chat"). -/
theorem busAdapter_exactly_one_outbound_witness :
    (busAdapterHandleInbound
      (fun _ => Except.ok { text := "Hello from agent!" })
      { channel := "test-channel", senderId := "test:user"
        chatId := "test:chat", content := "Hello bot"
        media := [], metadata := [] }).length = 1 := by
  have h := busAdapter_exactly_one_outbound
    (fun _ => Except.ok { text := "Hello from agent!" })
    { channel := "test-channel", senderId := "test:user"
      chatId := "test:chat", content := "Hello bot"
      media := [], metadata := [] }
  exact h.1

end Featherbot

namespace Featherbot

/-- C3: If the registry already holds a channel under name `n`, registering
another channel with name `n` fails synchronously with the duplicate-name
error (the new channel is not registered), and the original registration
is preserved: `getChannel n` still returns the first-registered channel. -/
theorem register_duplicate_rejected
    (st : ChannelManagerState) (n : String) (ch1 ch2 : Channel)
    (h1 : ChannelManager.getChannel st n = some ch1)
    (h2 : ch2.name = n) :
    ChannelManager.register st ch2 =
      .error ("Channel \"" ++ n ++ "\" is already registered") ∧
    ChannelManager.getChannel st n = some ch1 := by
  refine ⟨?_, h1⟩
  unfold ChannelManager.register
  unfold ChannelManager.getChannel at h1
  obtain ⟨p, hfind⟩ : ∃ p, st.channels.find? (fun p => p.1 == n) = some p := by
    cases hf : st.channels.find? (fun p => p.1 == n) with
    | none => simp [hf] at h1
    | some p => exact ⟨p, rfl⟩
  have hmem : p ∈ st.channels := List.mem_of_find?_eq_some hfind
  have hp : p.1 = n := by
    have := List.find?_some hfind
    simpa using this
  have hany : st.channels.any (fun q => q.1 == ch2.name) = true := by
    refine List.any_eq_true.mpr ⟨p, hmem, ?_⟩
    simp [hp, h2]
  rw [if_pos hany, h2]

/-- Witness for `register_duplicate_rejected`: a registry holding one
channel named "test"; registering a second channel named "test" errors. -/
theorem register_duplicate_rejected_witness :
    ChannelManager.register
      { channels := [("test",
          { name := "test", cid := 0
            startResult := .ok (), stopResult := .ok () })]
        outboundSubscribed := false }
      { name := "test", cid := 1
        startResult := .ok (), stopResult := .ok () } =
      .error ("Channel \"" ++ "test" ++ "\" is already registered") := by
  have h := register_duplicate_rejected
    { channels := [("test",
        { name := "test", cid := 0
          startResult := .ok (), stopResult := .ok () })]
      outboundSubscribed := false }
    "test"
    { name := "test", cid := 0, startResult := .ok (), stopResult := .ok () }
    { name := "test", cid := 1, startResult := .ok (), stopResult := .ok () }
    (by decide) rfl
  exact h.1

/-- C4: After `startAll` then `stopAll`, publishing any outbound event
invokes no channel's `send` (the outbound handler has been unsubscribed),
and `stopAll` also stopped every registered channel. -/
theorem stopAll_blocks_outbound
    (st : ChannelManagerState) (msg : OutboundMessage) :
    (publishOutbound
      (ChannelManager.stopAll (ChannelManager.startAll st).state).state
      msg).sends = [] ∧
    (ChannelManager.stopAll (ChannelManager.startAll st).state).state.outboundSubscribed
      = false ∧
    (ChannelManager.stopAll (ChannelManager.startAll st).state).invoked =
      st.channels.map (fun p => p.2.cid) := by
  refine ⟨?_, rfl, rfl⟩
  unfold publishOutbound ChannelManager.stopAll ChannelManager.startAll
  simp

/-- C5: After `startAll`, the outbound handler routes every published
outbound event to the registered channel whose name equals the event's
`channel` field, delivering the event's message via `send`; if no channel
matches, the event is dropped with the `No channel found` warning and no
delivery, and the handler returns normally (no exception). -/
theorem outbound_routing_after_startAll
    (st : ChannelManagerState) (msg : OutboundMessage) :
    (∀ ch,
      ChannelManager.getChannel (ChannelManager.startAll st).state msg.channel
        = some ch →
      publishOutbound (ChannelManager.startAll st).state msg =
        { sends := [(ch.cid, msg)], warnings := [] }) ∧
    (ChannelManager.getChannel (ChannelManager.startAll st).state msg.channel
        = none →
      publishOutbound (ChannelManager.startAll st).state msg =
        { sends := []
          warnings := [{ message := "No channel found for outbound message"
                         meta := msg.channel }] }) := by
  constructor
  · intro ch hch
    unfold publishOutbound
    simp only [ChannelManager.startAll] at hch ⊢
    simp [hch]
  · intro hnone
    unfold publishOutbound
    simp only [ChannelManager.startAll] at hnone ⊢
    simp [hnone]

/-- Witness for `outbound_routing_after_startAll`: one registered channel
named "telegram"; an outbound event for "telegram" is delivered to it. -/
theorem outbound_routing_after_startAll_witness :
    publishOutbound
      (ChannelManager.startAll
        { channels := [("telegram",
            { name := "telegram", cid := 7
              startResult := .ok (), stopResult := .ok () })]
          outboundSubscribed := false }).state
      { channel := "telegram", chatId := "chat-1", content := "hello"
        replyTo := none, media := [], metadata := []
        messageId := some "msg-1", inReplyToMessageId := none } =
      { sends := [(7,
          { channel := "telegram", chatId := "chat-1", content := "hello"
            replyTo := none, media := [], metadata := []
            messageId := some "msg-1", inReplyToMessageId := none })]
        warnings := [] } := by
  have h := outbound_routing_after_startAll
    { channels := [("telegram",
        { name := "telegram", cid := 7
          startResult := .ok (), stopResult := .ok () })]
      outboundSubscribed := false }
    { channel := "telegram", chatId := "chat-1", content := "hello"
      replyTo := none, media := [], metadata := []
      messageId := some "msg-1", inReplyToMessageId := none }
  exact h.1
    { name := "telegram", cid := 7, startResult := .ok (), stopResult := .ok () }
    (by decide)

/-- C6: `startAll` invokes `start` on every registered channel and
completes normally even when some starts fail: each failure is reported as
a `Channel failed to start` warning carrying the error message, no failure
prevents any other channel's start from being invoked, and the manager's
registry is left intact. -/
theorem startAll_isolates_failures (st : ChannelManagerState) :
    (∀ p ∈ st.channels, p.2.cid ∈ (ChannelManager.startAll st).invoked) ∧
    (∀ p ∈ st.channels, ∀ e, p.2.startResult = .error e →
      ({ message := "Channel failed to start", meta := e } : Warning)
        ∈ (ChannelManager.startAll st).warnings) ∧
    (ChannelManager.startAll st).state.channels = st.channels := by
  refine ⟨?_, ?_, rfl⟩
  · intro p hp
    unfold ChannelManager.startAll
    exact List.mem_map.mpr ⟨p, hp, rfl⟩
  · intro p hp e he
    unfold ChannelManager.startAll
    refine List.mem_filterMap.mpr ⟨p, hp, ?_⟩
    simp [he]

/-- Witness for `startAll_isolates_failures`: two registered channels, the
first failing to start with "connect failed"; both starts are invoked and
the failure is reported as a warning. -/
theorem startAll_isolates_failures_witness :
    (3 : Nat) ∈ (ChannelManager.startAll
      { channels :=
          [("failing",
            { name := "failing", cid := 3
              startResult := .error "connect failed", stopResult := .ok () }),
           ("ok",
            { name := "ok", cid := 4
              startResult := .ok (), stopResult := .ok () })]
        outboundSubscribed := false }).invoked ∧
    ({ message := "Channel failed to start", meta := "connect failed" } : Warning)
      ∈ (ChannelManager.startAll
        { channels :=
            [("failing",
              { name := "failing", cid := 3
                startResult := .error "connect failed", stopResult := .ok () }),
             ("ok",
              { name := "ok", cid := 4
                startResult := .ok (), stopResult := .ok () })]
          outboundSubscribed := false }).warnings := by
  have h := startAll_isolates_failures
    { channels :=
        [("failing",
          { name := "failing", cid := 3
            startResult := .error "connect failed", stopResult := .ok () }),
         ("ok",
          { name := "ok", cid := 4
            startResult := .ok (), stopResult := .ok () })]
      outboundSubscribed := false }
  refine ⟨h.1 ("failing",
      { name := "failing", cid := 3
        startResult := .error "connect failed", stopResult := .ok () })
      (by simp), ?_⟩
  exact h.2.1 ("failing",
      { name := "failing", cid := 3
        startResult := .error "connect failed", stopResult := .ok () })
    (by simp) "connect failed" rfl


end Featherbot

namespace Featherbot

/-- C7: Gateway startup issues its calls in this order: the Bus Adapter's
start first, then the Channel Manager's `startAll` (awaited), then the
cron service's start exactly when a cron service is configured, then the
heartbeat service's start exactly when a heartbeat service is configured.
The trace is a sublist of the canonical order, so no configured step ever
runs out of that order. -/
theorem gateway_startup_order (cronConfigured heartbeatConfigured : Bool) :
    (runGatewayStartup cronConfigured heartbeatConfigured).take 2 =
      [GatewayAction.adapterStart, GatewayAction.channelsStartAll] ∧
    (runGatewayStartup cronConfigured heartbeatConfigured).Sublist
      [GatewayAction.adapterStart, GatewayAction.channelsStartAll,
       GatewayAction.cronStart, GatewayAction.heartbeatStart] ∧
    (GatewayAction.cronStart ∈ runGatewayStartup cronConfigured heartbeatConfigured
      ↔ cronConfigured = true) ∧
    (GatewayAction.heartbeatStart ∈ runGatewayStartup cronConfigured heartbeatConfigured
      ↔ heartbeatConfigured = true) := by
  cases cronConfigured <;> cases heartbeatConfigured <;> decide

/-- C8: `TerminalChannel.stop` is safe before any `start` (total on the
fresh state, leaving the channel stopped with the readline interface
released), idempotent (a second `stop` changes nothing), always leaves the
channel stopped, and after a `stop` the prompt loop publishes no further
inbound messages on any input line. -/
theorem terminal_stop_safe_idempotent :
    (TerminalChannel.stop TerminalChannel.init =
      { running := false, rlOpen := false }) ∧
    (∀ s, TerminalChannel.stop (TerminalChannel.stop s) =
      TerminalChannel.stop s) ∧
    (∀ s, (TerminalChannel.stop s).running = false ∧
      (TerminalChannel.stop s).rlOpen = false) ∧
    (∀ s line,
      (TerminalChannel.promptLoopStep (TerminalChannel.stop s) line).2 = []) := by
  have hstop : ∀ s, TerminalChannel.stop s =
      { running := false, rlOpen := false } := by
    intro s
    unfold TerminalChannel.stop
    by_cases h : s.rlOpen
    · simp [h]
    · simp [h]
  refine ⟨hstop _, ?_, ?_, ?_⟩
  · intro s
    simp [hstop]
  · intro s
    rw [hstop]
    exact ⟨rfl, rfl⟩
  · intro s line
    rw [hstop]
    unfold TerminalChannel.promptLoopStep
    simp

/-- C9 counterexample: the source union type `ChannelStatus` gives the
status `"stopped"`, which is not among the four state names the claim
lists (`not-started`, `starting`, `running`, `failed`). -/
theorem channelStatus_claim_counterexample :
    specClaimedStatusNames.contains
      (ChannelStatus.literal ChannelStatus.stopped) = false := by
  decide

/-- C9 (amended): every channel status is one of exactly the four states
`stopped`, `starting`, `running`, `error` — the closed union type admits
no other value, the four names are pairwise distinct, and each of the four
names is realized. -/
theorem channelStatus_four_states :
    (∀ s : ChannelStatus, s.literal ∈ codeStatusNames) ∧
    codeStatusNames.Nodup ∧
    codeStatusNames.length = 4 ∧
    (∀ n ∈ codeStatusNames, ∃ s : ChannelStatus, s.literal = n) := by
  refine ⟨?_, by decide, rfl, ?_⟩
  · intro s
    cases s <;> simp [ChannelStatus.literal, codeStatusNames]
  · intro n hn
    simp only [codeStatusNames, List.mem_cons, List.mem_singleton] at hn
    rcases hn with h | h | h | h | h
    · exact ⟨.stopped, by rw [h]; rfl⟩
    · exact ⟨.starting, by rw [h]; rfl⟩
    · exact ⟨.running, by rw [h]; rfl⟩
    · exact ⟨.error, by rw [h]; rfl⟩
    · cases h

/-- C2: A spawned task is `running`; when its timeout fires before the
provider call settles, it transitions to `failed` with the fixed error
message `Sub-agent timed out`, the completion callback is invoked exactly
once with that terminal record, and any later settlement of the provider
call is discarded — it changes neither the task's status, result, error,
nor the callback log. -/
theorem subagent_timeout_terminal (id : String) (opts : SpawnOptions)
    (t0 T : Nat) :
    (subagentSpawn id opts t0).state.status = SubagentStatus.running ∧
    (subagentStep (subagentSpawn id opts t0)
      (SubagentEvent.timeoutFired T)).state.status = SubagentStatus.failed ∧
    (subagentStep (subagentSpawn id opts t0)
      (SubagentEvent.timeoutFired T)).state.error =
        some "Sub-agent timed out" ∧
    (subagentStep (subagentSpawn id opts t0)
      (SubagentEvent.timeoutFired T)).state.result = none ∧
    (subagentStep (subagentSpawn id opts t0)
      (SubagentEvent.timeoutFired T)).callbackLog =
      [(subagentStep (subagentSpawn id opts t0)
        (SubagentEvent.timeoutFired T)).state] ∧
    (∀ ev, subagentStep
        (subagentStep (subagentSpawn id opts t0) (SubagentEvent.timeoutFired T))
        ev =
      subagentStep (subagentSpawn id opts t0) (SubagentEvent.timeoutFired T)) := by
  have hstep : subagentStep (subagentSpawn id opts t0)
      (SubagentEvent.timeoutFired T) =
      { state := { id := id
                   task := opts.task
                   status := .failed
                   result := none
                   error := some "Sub-agent timed out"
                   startedAt := t0
                   completedAt := some T
                   originChannel := opts.originChannel
                   originChatId := opts.originChatId }
        callbackLog :=
          [{ id := id
             task := opts.task
             status := .failed
             result := none
             error := some "Sub-agent timed out"
             startedAt := t0
             completedAt := some T
             originChannel := opts.originChannel
             originChatId := opts.originChatId }] } := rfl
  refine ⟨rfl, ?_, ?_, ?_, ?_, ?_⟩
  · rw [hstep]
  · rw [hstep]
  · rw [hstep]
  · rw [hstep]
  · intro ev
    rw [hstep]
    cases ev <;> rfl

/-- The heartbeat invariant holds initially. -/
lemma heartbeatInv_init : HeartbeatInv heartbeatInit :=
  Or.inr ⟨rfl, rfl⟩

/-- The heartbeat invariant is preserved by every observable step. -/
lemma heartbeatInv_step (sys : HeartbeatSystem) (ev : HeartbeatEvent)
    (h : HeartbeatInv sys) : HeartbeatInv (heartbeatStepSys sys ev) := by
  rcases h with ⟨hp, hf⟩ | ⟨hp, hf⟩
  · cases ev with
    | tickFired file =>
        left
        unfold heartbeatStepSys heartbeatTick
        simp [hp, hf]
    | onTickSettled =>
        right
        unfold heartbeatStepSys heartbeatSettle
        simp [hf]
  · cases ev with
    | tickFired file =>
        unfold heartbeatStepSys heartbeatTick
        cases file with
        | unreadable => right; simp [hp, hf]
        | content c =>
            by_cases hc : jsTrim c = ""
            · right; simp [hp, hf, hc]
            · left; simp [hp, hf, hc]
    | onTickSettled =>
        right
        unfold heartbeatStepSys
        simp [hf, hp]

/-- The heartbeat invariant holds after any sequence of observable events
starting from the fresh service. -/
lemma heartbeatInv_reachable (evs : List HeartbeatEvent) :
    HeartbeatInv (evs.foldl heartbeatStepSys heartbeatInit) := by
  have hgen : ∀ (l : List HeartbeatEvent) (sys : HeartbeatSystem),
      HeartbeatInv sys → HeartbeatInv (l.foldl heartbeatStepSys sys) := by
    intro l
    induction l with
    | nil => intro sys h; exact h
    | cons e l ih =>
        intro sys h
        exact ih _ (heartbeatInv_step sys e h)
  exact hgen evs heartbeatInit heartbeatInv_init

/-- C10: The heartbeat service never runs overlapping `onTick`
invocations: over every sequence of ticks and settlements at most one
invocation is ever in flight; a tick firing while `processing` is set is
skipped entirely — the heartbeat file is not read and `onTick` is not
invoked; and a tick whose file read fails, or whose content is blank after
trimming, does not invoke `onTick` either. -/
theorem heartbeat_no_overlap :
    (∀ evs : List HeartbeatEvent,
      (evs.foldl heartbeatStepSys heartbeatInit).inFlight ≤ 1) ∧
    (∀ file, heartbeatTick true file =
      { processing := true, fileRead := false, invoked := none }) ∧
    (∀ processing, (heartbeatTick processing HeartbeatFileRead.unreadable).invoked
      = none) ∧
    (∀ processing c, jsTrim c = "" →
      (heartbeatTick processing (HeartbeatFileRead.content c)).invoked = none) := by
  refine ⟨?_, ?_, ?_, ?_⟩
  · intro evs
    rcases heartbeatInv_reachable evs with ⟨_, hf⟩ | ⟨_, hf⟩ <;> omega
  · intro file
    unfold heartbeatTick
    simp
  · intro processing
    unfold heartbeatTick
    by_cases h : processing <;> simp [h]
  · intro processing c hc
    unfold heartbeatTick
    by_cases h : processing <;> simp [h, hc]

/-- Witness for `heartbeat_no_overlap` at concrete inputs: a blank-content
tick (content `" "`) invokes nothing, and a concrete two-tick trace keeps
at most one invocation in flight. -/
theorem heartbeat_no_overlap_witness :
    (heartbeatTick false (HeartbeatFileRead.content " ")).invoked = none ∧
    ([HeartbeatEvent.tickFired (HeartbeatFileRead.content "x"),
      HeartbeatEvent.tickFired (HeartbeatFileRead.content "y")].foldl
        heartbeatStepSys heartbeatInit).inFlight ≤ 1 := by
  exact ⟨heartbeat_no_overlap.2.2.2 false " " (by decide),
    heartbeat_no_overlap.1 _⟩

end Featherbot

namespace Featherbot

/-- Witness for `channelStatus_four_states` at the concrete name
`"stopped"`: it is among the code's status names and is realized by a
`ChannelStatus` member. -/
theorem channelStatus_four_states_witness :
    "stopped" ∈ codeStatusNames ∧
    ∃ s : ChannelStatus, s.literal = "stopped" := by
  exact ⟨by decide, channelStatus_four_states.2.2.2 "stopped" (by decide)⟩

end Featherbot
